import Mathlib

/-!
Verification of the agent core of the AI-Agent repository.

This file gives a shallow embedding of the tool dispatcher
(`execute_tool` in src/agent/core.py), the conversation loop
(`AIAgent.chat` in src/agent/core.py) and the keyword router
(`detect_task_type` in src/agent/router.py), and proves or refutes the
stated properties of those functions.

Modelling conventions:
- Python values that flow through tool inputs and collaborator results
  are modelled by the inductive type `JValue` (JSON-serialisable Python
  values; Python dicts are insertion-ordered association lists).
- The external collaborator functions imported by core.py (the tool
  implementations in src/tools) are parameters, gathered in the
  structure `Env`; each either returns a value or raises, modelled as
  `Except String`.
- Python exception propagation is modelled by the `Except String`
  monad; the try/except block of `execute_tool` is the final `match`.
- A Python function that can fall off the end of its body without a
  `return` yields `Option String` with `none` standing for the Python
  value `None`.
- Machine integers do not occur on any modelled path; Python ints are
  unbounded and modelled by `Int`.
-/

/-- JSON-serialisable Python values: None, bool, int, float, str, list
and dict.  A dict is an insertion-ordered association list, as in
Python.  Floats carry a rational; the dispatcher only ever constructs
the whole float 1.0 as a default argument and never serialises it. -/
inductive JValue where
  | null
  | bool (b : Bool)
  | int (n : Int)
  | float (q : Rat)
  | str (s : String)
  | list (xs : List JValue)
  | obj (kvs : List (String × JValue))

/-- A Python dict of tool arguments, keyed by strings. -/
abbrev Dict := List (String × JValue)

/-- Single-quote character, used when rendering Python repr strings. -/
def squote : String := String.singleton (Char.ofNat 39)

/-- Lower-case hex digit, as produced by the json module. -/
def hexDigit (n : Nat) : Char :=
  if n < 10 then Char.ofNat (48 + n) else Char.ofNat (87 + n)

/-- Four lower-case hex digits. -/
def hex4 (n : Nat) : String :=
  String.mk [hexDigit (n / 4096 % 16), hexDigit (n / 256 % 16),
             hexDigit (n / 16 % 16), hexDigit (n % 16)]

/-- Escaping of one character inside a JSON string literal, following
json.dumps with its default ensure_ascii=True: characters outside
0x20..0x7e are escaped, with surrogate pairs above 0xFFFF. -/
def jsonEscapeChar (c : Char) : String :=
  if c = '"' then "\\\""
  else if c = '\\' then "\\\\"
  else if c = '\n' then "\\n"
  else if c = '\r' then "\\r"
  else if c = '\t' then "\\t"
  else if c = Char.ofNat 8 then "\\b"
  else if c = Char.ofNat 12 then "\\f"
  else if c.toNat < 32 || c.toNat > 126 then
    if c.toNat ≤ 65535 then "\\u" ++ hex4 c.toNat
    else "\\u" ++ hex4 (55296 + (c.toNat - 65536) / 1024) ++
         "\\u" ++ hex4 (56320 + (c.toNat - 65536) % 1024)
  else String.singleton c

/-- A JSON string literal with quotes and escapes, as json.dumps
renders Python strings. -/
def jsonQuote (s : String) : String :=
  "\"" ++ String.join (s.toList.map jsonEscapeChar) ++ "\""

/-- Rendering of a Python float.  The dispatcher only ever builds the
float 1.0; the non-integral case is an unexercised approximation. -/
def floatRepr (q : Rat) : String :=
  if q.den = 1 then toString q.num ++ ".0"
  else toString q.num ++ "/" ++ toString q.den

/-- Indentation prefix used by json.dumps with indent=2: two spaces per
nesting level. -/
def pad (lvl : Nat) : String := String.mk (List.replicate (2 * lvl) ' ')

mutual

/-- Rendering of one value by json.dumps(value, indent=2) at a given
nesting level: scalars inline, lists and dicts one element per line,
dict keys in insertion order (dumps is called without sort_keys). -/
def dumpVal (lvl : Nat) : JValue → String
  | .null => "null"
  | .bool b => if b then "true" else "false"
  | .int n => toString n
  | .float q => floatRepr q
  | .str s => jsonQuote s
  | .list [] => "[]"
  | .list (x :: xs) =>
      "[\n" ++ pad (lvl + 1) ++ dumpVal (lvl + 1) x ++
      dumpListRest (lvl + 1) xs ++ "\n" ++ pad lvl ++ "]"
  | .obj [] => "\x7b\x7d"
  | .obj ((k, v) :: kvs) =>
      "\x7b\n" ++ pad (lvl + 1) ++ jsonQuote k ++ ": " ++ dumpVal (lvl + 1) v ++
      dumpObjRest (lvl + 1) kvs ++ "\n" ++ pad lvl ++ "\x7d"

/-- Remaining list elements, each preceded by a comma and newline. -/
def dumpListRest (lvl : Nat) : List JValue → String
  | [] => ""
  | x :: xs => ",\n" ++ pad lvl ++ dumpVal lvl x ++ dumpListRest lvl xs

/-- Remaining dict entries, each preceded by a comma and newline. -/
def dumpObjRest (lvl : Nat) : List (String × JValue) → String
  | [] => ""
  | (k, v) :: kvs =>
      ",\n" ++ pad lvl ++ jsonQuote k ++ ": " ++ dumpVal lvl v ++
      dumpObjRest lvl kvs

end

/-- json.dumps(value, indent=2), the success encoding the dispatcher
uses for structured collaborator results (core.py lines 419, 423, 440,
478 and others). -/
def json_dumps (v : JValue) : String := dumpVal 0 v

mutual

/-- Python repr of a value (used via str() on lists and dicts in
f-string error messages).  String escaping inside repr is simplified;
no modelled code path depends on it. -/
def pyRepr : JValue → String
  | .null => "None"
  | .bool b => if b then "True" else "False"
  | .int n => toString n
  | .float q => floatRepr q
  | .str s => squote ++ s ++ squote
  | .list [] => "[]"
  | .list (x :: xs) => "[" ++ pyRepr x ++ reprListRest xs ++ "]"
  | .obj [] => "\x7b\x7d"
  | .obj ((k, v) :: kvs) =>
      "\x7b" ++ squote ++ k ++ squote ++ ": " ++ pyRepr v ++ reprObjRest kvs ++ "\x7d"

/-- Remaining list elements of a Python repr. -/
def reprListRest : List JValue → String
  | [] => ""
  | x :: xs => ", " ++ pyRepr x ++ reprListRest xs

/-- Remaining dict entries of a Python repr. -/
def reprObjRest : List (String × JValue) → String
  | [] => ""
  | (k, v) :: kvs => ", " ++ squote ++ k ++ squote ++ ": " ++ pyRepr v ++ reprObjRest kvs

end

/-- Python str() of a value, as interpolated by f-strings: strings pass
through unquoted, everything else renders like repr. -/
def pyStr : JValue → String
  | .str s => s
  | v => pyRepr v

/-- Dict lookup returning an optional value (first binding wins; Python
dicts have unique keys). -/
def dget? (d : Dict) (k : String) : Option JValue :=
  (d.find? (fun kv => kv.1 == k)).map (fun kv => kv.2)

/-- Python tool_input[k]: raises KeyError when the key is absent.  The
message of KeyError(k) seen through str() is the repr of the key. -/
def dreq (d : Dict) (k : String) : Except String JValue :=
  match dget? d k with
  | some v => Except.ok v
  | none => Except.error (squote ++ k ++ squote)

/-- Python tool_input.get(k): None when absent. -/
def dget (d : Dict) (k : String) : JValue := (dget? d k).getD JValue.null

/-- Python tool_input.get(k, dflt). -/
def dgetD (d : Dict) (k : String) (dflt : JValue) : JValue :=
  (dget? d k).getD dflt

/-- Python equality test of a value against a string literal, as in
doc_type == "word": false whenever the value is not a string. -/
def isStrEq (v : JValue) (s : String) : Bool :=
  match v with
  | .str t => t == s
  | _ => false

/-- The external collaborator functions imported by core.py from
src/tools.  Each receives the (unchecked) Python values the dispatcher
passes it and either returns a result or raises; per the interface in
the spec, some return plain strings and some return structured values.
The dispatcher is verified for every possible behaviour of these. -/
structure Env where
  convert_any_to_pdf : JValue → JValue → Except String String
  modify_word_document : JValue → JValue → JValue → Except String String
  modify_excel_file : JValue → JValue → JValue → JValue → Except String String
  resize_image : JValue → JValue → JValue → JValue → Except String String
  convert_image_format : JValue → JValue → JValue → Except String String
  add_watermark : JValue → JValue → JValue → Except String String
  adjust_image : JValue → JValue → JValue → JValue → JValue → Except String String
  execute_python_code : JValue → JValue → Except String JValue
  execute_soql : JValue → Except String JValue
  create_instagram_reel_script : JValue → JValue → JValue → JValue → Except String JValue
  create_youtube_video_package : JValue → JValue → JValue → Except String JValue
  web_search : JValue → JValue → JValue → Except String String
  forum_search : JValue → JValue → Except String String
  deep_research : JValue → Except String String
  fetch_url : JValue → JValue → Except String String
  create_repository : JValue → JValue → JValue → JValue → JValue → JValue → Except String JValue
  push_files : JValue → JValue → JValue → JValue → JValue → Except String JValue
  enable_github_pages : JValue → JValue → JValue → Except String JValue
  list_repositories : JValue → Except String JValue
  get_repository : JValue → Except String JValue
  get_github_user : Except String JValue
  create_release : JValue → JValue → JValue → JValue → Except String JValue
  read_file_from_repo : JValue → JValue → JValue → Except String String
  create_workflow : JValue → JValue → JValue → JValue → Except String String
  run_command : JValue → JValue → JValue → Except String JValue
  write_file : JValue → JValue → JValue → Except String JValue
  shell_read_file : JValue → JValue → Except String String
  list_directory : JValue → JValue → Except String String
  system_info : Except String JValue
  git_init_and_push : JValue → JValue → JValue → JValue → Except String JValue
  git_clone : JValue → JValue → Except String JValue

/-- Schema entry of the tool registry TOOLS (core.py lines 62-342):
tool name and its required input fields. -/
structure ToolSchema where
  name : String
  required : List String

/-- The tool registry TOOLS of core.py, reduced to names and required
fields (descriptions and property types are model-facing prose). -/
def TOOLS : List ToolSchema :=
  [⟨"convert_to_pdf", ["input_path"]⟩,
   ⟨"modify_document", ["input_path", "document_type"]⟩,
   ⟨"modify_image", ["input_path", "operation"]⟩,
   ⟨"execute_code", ["code"]⟩,
   ⟨"salesforce_query", ["soql"]⟩,
   ⟨"create_video_content", ["platform", "topic"]⟩,
   ⟨"web_search", ["query"]⟩,
   ⟨"forum_search", ["query"]⟩,
   ⟨"deep_research", ["topic"]⟩,
   ⟨"fetch_url", ["url"]⟩,
   ⟨"github_operation", ["action"]⟩,
   ⟨"shell_execute", ["action"]⟩]

/-- Body of execute_tool (core.py lines 363-594), the code inside the
try block.  `Except.error` is a raised Python exception, to be caught
at the boundary; `Except.ok none` is the implicit Python None produced
when control falls off the end of the try block (which happens exactly
in the modify_document branch when document_type is neither "word" nor
"excel"); `Except.ok (some s)` is `return s`. -/
def execute_tool_body (env : Env) (tool_name : String) (ti : Dict) :
    Except String (Option String) :=
  if tool_name = "convert_to_pdf" then do
    let input_path ← dreq ti "input_path"
    let result ← env.convert_any_to_pdf input_path (dget ti "output_path")
    pure (some ("✅ Successfully converted to PDF: " ++ result))
  else if tool_name = "modify_document" then do
    let doc_type ← dreq ti "document_type"
    if isStrEq doc_type "word" then do
      let input_path ← dreq ti "input_path"
      let result ← env.modify_word_document input_path
        (dgetD ti "replacements" (.obj [])) (dget ti "output_path")
      pure (some ("✅ Word document modified: " ++ result))
    else if isStrEq doc_type "excel" then do
      let input_path ← dreq ti "input_path"
      let result ← env.modify_excel_file input_path
        (dgetD ti "cell_updates" (.obj [])) (dget ti "sheet_name")
        (dget ti "output_path")
      pure (some ("✅ Excel file modified: " ++ result))
    else
      pure none
  else if tool_name = "modify_image" then do
    let op ← dreq ti "operation"
    let input_path ← dreq ti "input_path"
    let output_path := dget ti "output_path"
    if isStrEq op "resize" then do
      let w ← dreq ti "width"
      let h ← dreq ti "height"
      let result ← env.resize_image input_path w h output_path
      pure (some ("✅ Image modified (" ++ pyStr op ++ "): " ++ result))
    else if isStrEq op "convert_format" then do
      let tf ← dreq ti "target_format"
      let result ← env.convert_image_format input_path tf output_path
      pure (some ("✅ Image modified (" ++ pyStr op ++ "): " ++ result))
    else if isStrEq op "add_watermark" then do
      let wt ← dreq ti "watermark_text"
      let result ← env.add_watermark input_path wt output_path
      pure (some ("✅ Image modified (" ++ pyStr op ++ "): " ++ result))
    else if isStrEq op "adjust" then do
      let result ← env.adjust_image input_path
        (dgetD ti "brightness" (.float 1)) (dgetD ti "contrast" (.float 1))
        (dgetD ti "saturation" (.float 1)) output_path
      pure (some ("✅ Image modified (" ++ pyStr op ++ "): " ++ result))
    else
      pure (some ("❌ Unknown image operation: " ++ pyStr op))
  else if tool_name = "execute_code" then do
    let code ← dreq ti "code"
    let result ← env.execute_python_code code (dgetD ti "timeout_seconds" (.int 30))
    pure (some (json_dumps result))
  else if tool_name = "salesforce_query" then do
    let soql ← dreq ti "soql"
    let records ← env.execute_soql soql
    pure (some (json_dumps records))
  else if tool_name = "create_video_content" then do
    let platform ← dreq ti "platform"
    if isStrEq platform "instagram_reel" then do
      let topic ← dreq ti "topic"
      let result ← env.create_instagram_reel_script topic
        (dgetD ti "duration_seconds" (.int 30)) (dgetD ti "niche" (.str "general"))
        (dgetD ti "tone" (.str "engaging"))
      pure (some (json_dumps result))
    else do
      let topic ← dreq ti "topic"
      let result ← env.create_youtube_video_package topic
        (dgetD ti "video_length_minutes" (.int 10))
        (dgetD ti "niche" (.str "general"))
      pure (some (json_dumps result))
  else if tool_name = "web_search" then do
    let query ← dreq ti "query"
    let r ← env.web_search query (dgetD ti "num_results" (.int 10))
      (dgetD ti "search_depth" (.str "advanced"))
    pure (some r)
  else if tool_name = "forum_search" then do
    let query ← dreq ti "query"
    let r ← env.forum_search query (dgetD ti "num_results" (.int 10))
    pure (some r)
  else if tool_name = "deep_research" then do
    let topic ← dreq ti "topic"
    let r ← env.deep_research topic
    pure (some r)
  else if tool_name = "fetch_url" then do
    let url ← dreq ti "url"
    let r ← env.fetch_url url (dgetD ti "max_chars" (.int 6000))
    pure (some r)
  else if tool_name = "github_operation" then do
    let action ← dreq ti "action"
    if isStrEq action "create_repo" then do
      let name ← dreq ti "repo_name"
      let r ← env.create_repository name (dgetD ti "description" (.str ""))
        (dgetD ti "private" (.bool true)) (dgetD ti "auto_init" (.bool true))
        (dget ti "gitignore_template") (dgetD ti "homepage" (.str ""))
      pure (some (json_dumps r))
    else if isStrEq action "push_files" then do
      let repo_name ← dreq ti "repo_name"
      let files ← dreq ti "files"
      let r ← env.push_files repo_name files
        (dgetD ti "commit_message" (.str "feat: add files via APEX"))
        (dgetD ti "branch" (.str "main")) (dgetD ti "create_branch" (.bool false))
      pure (some (json_dumps r))
    else if isStrEq action "enable_pages" then do
      let repo_name ← dreq ti "repo_name"
      let r ← env.enable_github_pages repo_name (dgetD ti "branch" (.str "main"))
        (dgetD ti "pages_path" (.str "/"))
      pure (some (json_dumps r))
    else if isStrEq action "list_repos" then do
      let repos ← env.list_repositories (dgetD ti "limit" (.int 20))
      pure (some (json_dumps repos))
    else if isStrEq action "get_repo" then do
      let repo_name ← dreq ti "repo_name"
      let r ← env.get_repository repo_name
      pure (some (json_dumps r))
    else if isStrEq action "get_user" then do
      let r ← env.get_github_user
      pure (some (json_dumps r))
    else if isStrEq action "create_release" then do
      let repo_name ← dreq ti "repo_name"
      let tag ← dreq ti "tag"
      let title ← dreq ti "release_title"
      let r ← env.create_release repo_name tag title
        (dgetD ti "release_body" (.str ""))
      pure (some (json_dumps r))
    else if isStrEq action "read_file" then do
      let repo_name ← dreq ti "repo_name"
      let file_path ← dreq ti "file_path"
      let content ← env.read_file_from_repo repo_name file_path
        (dgetD ti "branch" (.str "main"))
      pure (some content)
    else if isStrEq action "create_workflow" then do
      let repo_name ← dreq ti "repo_name"
      let workflow_name ← dreq ti "workflow_name"
      let workflow_yaml ← dreq ti "workflow_yaml"
      let url ← env.create_workflow repo_name workflow_name workflow_yaml
        (dgetD ti "branch" (.str "main"))
      pure (some ("✅ Workflow created. Actions URL: " ++ url))
    else
      pure (some ("❌ Unknown github_operation action: " ++ pyStr action))
  else if tool_name = "shell_execute" then do
    let action ← dreq ti "action"
    if isStrEq action "run_command" then do
      let command ← dreq ti "command"
      let r ← env.run_command command (dget ti "working_directory")
        (dgetD ti "timeout_seconds" (.int 120))
      pure (some (json_dumps r))
    else if isStrEq action "write_file" then do
      let file_path ← dreq ti "file_path"
      let content ← dreq ti "content"
      let r ← env.write_file file_path content (dget ti "working_directory")
      pure (some (json_dumps r))
    else if isStrEq action "read_file" then do
      let file_path ← dreq ti "file_path"
      let r ← env.shell_read_file file_path (dget ti "working_directory")
      pure (some r)
    else if isStrEq action "list_directory" then do
      let r ← env.list_directory (dgetD ti "path" (.str "."))
        (dget ti "working_directory")
      pure (some r)
    else if isStrEq action "system_info" then do
      let r ← env.system_info
      pure (some (json_dumps r))
    else if isStrEq action "git_push" then do
      let local_dir ← dreq ti "local_dir"
      let remote_url ← dreq ti "remote_url"
      let r ← env.git_init_and_push local_dir remote_url
        (dgetD ti "command" (.str "initial commit")) (dgetD ti "branch" (.str "main"))
      pure (some (json_dumps r))
    else if isStrEq action "git_clone" then do
      let repo_url ← dreq ti "repo_url"
      let r ← env.git_clone repo_url (dget ti "local_dir")
      pure (some (json_dumps r))
    else
      pure (some ("❌ Unknown shell_execute action: " ++ pyStr action))
  else
    pure (some ("❌ Unknown tool: " ++ tool_name))

/-- The dispatcher execute_tool (core.py lines 350-598).  The whole
body sits in a try/except Exception block, so a raised exception is
converted to a ❌-marked string; `none` is the Python None that the
function yields when the try block falls through without a return. -/
def execute_tool (env : Env) (tool_name : String) (tool_input : Dict) :
    Option String :=
  match execute_tool_body env tool_name tool_input with
  | Except.ok r => r
  | Except.error e => some ("❌ Tool error: " ++ e)

/-- Message role; history only ever stores user and assistant turns
(the system prompt is passed out of band on every call). -/
inductive Role where
  | user
  | assistant
deriving DecidableEq

/-- One content block of a model response: a text block, a tool_use
block (with id, tool name and input dict), or any other block kind
(e.g. thinking), which has no text attribute. -/
inductive Block where
  | text (text : String)
  | toolUse (id : String) (name : String) (input : Dict)
  | other

/-- One tool_result block of the synthesized result message (core.py
lines 679-685): the correlation id copied from the tool_use block and
the value returned by execute_tool (an Option, since execute_tool can
yield Python None). -/
structure ToolResultBlock where
  tool_use_id : String
  content : Option String

/-- Content of one history entry: a plain string, the raw content
blocks of an assistant response, or a list of tool_result blocks. -/
inductive MContent where
  | str (s : String)
  | blocks (bs : List Block)
  | results (rs : List ToolResultBlock)

/-- One turn in conversation_history. -/
structure Message where
  role : Role
  content : MContent

/-- A model response: its stop_reason and ordered content blocks. -/
structure Response where
  stop_reason : String
  content : List Block

/-- Outcome of one call to chat: either a normal return carrying the
answer string and the final history, or a Python exception escaping to
the caller (transport errors are not caught), carrying the history
state at that moment. -/
inductive ChatResult where
  | ret (answer : String) (history : List Message)
  | raised (err : String) (history : List Message)

/-- The model API self.client.messages.create, abstracted: given the
current history it returns a response or raises a transport error. -/
abbrev Oracle := List Message → Except String Response

/-- A tool call extracted from a tool_use block. -/
structure ToolCall where
  id : String
  name : String
  input : Dict

/-- The tool_use blocks of a response content list, in order. -/
def toolCalls : List Block → List ToolCall
  | [] => []
  | Block.toolUse id name input :: rest => ⟨id, name, input⟩ :: toolCalls rest
  | _ :: rest => toolCalls rest

/-- The tool_results list built by the for loop in core.py lines
674-685: one result block per tool_use block, in response order, each
tagged with the id of the block it answers. -/
def mkToolResults (env : Env) : List Block → List ToolResultBlock
  | [] => []
  | Block.toolUse id name input :: rest =>
      ⟨id, execute_tool env name input⟩ :: mkToolResults env rest
  | _ :: rest => mkToolResults env rest

/-- The end_turn join of core.py lines 692-694: concatenation of the
text of every text-bearing block, in order, other blocks ignored. -/
def joinTexts (bs : List Block) : String :=
  String.join (bs.filterMap (fun b =>
    match b with
    | Block.text t => some t
    | _ => none))

/-- History extension performed by the tool_use branch (core.py lines
667-689): append the raw assistant response, then a single user
message holding the ordered tool results. -/
def nextHistory (env : Env) (hist : List Message) (resp : Response) :
    List Message :=
  hist ++ [⟨Role.assistant, MContent.blocks resp.content⟩,
           ⟨Role.user, MContent.results (mkToolResults env resp.content)⟩]

/-- The user content built at the top of chat (core.py lines 648-650):
the message, plus an upload annotation when a file path is given. -/
def mkUserContent (user_message : String) (uploaded_file_path : Option String) :
    String :=
  match uploaded_file_path with
  | some p => user_message ++ "\n\n[Uploaded file available at: " ++ p ++ "]"
  | none => user_message

/-- The while True loop of chat (core.py lines 656-703), supplied with
fuel since the source loop is unbounded; `none` means the loop was
still running after that many model calls.  Each iteration invokes the
oracle on the current history; a raised transport error escapes with
the history as it stands; tool_use extends the history and loops;
end_turn appends the joined text as an assistant message and returns
it; any other stop reason returns the generic error string without
touching history. -/
def chat_loop (oracle : Oracle) (env : Env) : Nat → List Message → Option ChatResult
  | 0, _ => none
  | fuel + 1, hist =>
    match oracle hist with
    | Except.error e => some (ChatResult.raised e hist)
    | Except.ok resp =>
      if resp.stop_reason = "tool_use" then
        chat_loop oracle env fuel (nextHistory env hist resp)
      else if resp.stop_reason = "end_turn" then
        some (ChatResult.ret (joinTexts resp.content)
          (hist ++ [⟨Role.assistant, MContent.str (joinTexts resp.content)⟩]))
      else
        some (ChatResult.ret "An unexpected error occurred. Please try again." hist)

/-- AIAgent.chat (core.py lines 636-703): append the user message to
the history, then run the agentic loop. -/
def chat (oracle : Oracle) (env : Env) (fuel : Nat) (hist : List Message)
    (user_message : String) (uploaded_file_path : Option String) :
    Option ChatResult :=
  chat_loop oracle env fuel
    (hist ++ [⟨Role.user, MContent.str (mkUserContent user_message uploaded_file_path)⟩])

/-- AIAgent.reset_conversation (core.py lines 705-708): clear the
history. -/
def reset_conversation (_hist : List Message) : List Message := []

/-- The successive history values on which the loop invokes the model:
the current history now, and, when the response asks for tools, the
histories of the following iterations. -/
def callHistories (oracle : Oracle) (env : Env) : Nat → List Message → List (List Message)
  | 0, _ => []
  | fuel + 1, hist =>
    hist :: (match oracle hist with
      | Except.error _ => []
      | Except.ok resp =>
        if resp.stop_reason = "tool_use" then
          callHistories oracle env fuel (nextHistory env hist resp)
        else [])

/-- The histories a call to chat presents to the model. -/
def chatCalls (oracle : Oracle) (env : Env) (fuel : Nat) (hist : List Message)
    (user_message : String) (uploaded_file_path : Option String) :
    List (List Message) :=
  callHistories oracle env fuel
    (hist ++ [⟨Role.user, MContent.str (mkUserContent user_message uploaded_file_path)⟩])

/-- Scan of a history checking that every assistant message made of
content blocks is immediately followed by a user message whose
tool_result blocks carry exactly the ids of its tool_use blocks, in
order.  The first argument holds the expected result ids while the
scan stands right after such an assistant message. -/
def answeredAux : Option (List String) → List Message → Bool
  | pending, [] => pending.isNone
  | some ids, ⟨Role.user, MContent.results rs⟩ :: rest =>
      decide (rs.map (fun r => r.tool_use_id) = ids) && answeredAux none rest
  | some _, _ :: _ => false
  | none, ⟨Role.assistant, MContent.blocks bs⟩ :: rest =>
      answeredAux (some ((toolCalls bs).map (fun c => c.id))) rest
  | none, _ :: rest => answeredAux none rest

/-- A history has no unanswered tool calls: every tool_use request is
matched, in order, by the result message right after it. -/
def answered (hist : List Message) : Bool := answeredAux none hist

/-- Python message.lower(), over the ASCII range the router keywords
use. -/
def pyLower (s : String) : String := String.mk (s.toList.map Char.toLower)

/-- Containment of a character sequence in another, as the Python
substring test kw in lower. -/
def listContains (needle : List Char) : List Char → Bool
  | [] => needle.isEmpty
  | c :: rest => needle.isPrefixOf (c :: rest) || listContains needle rest

/-- Python substring test needle in haystack. -/
def strContains (haystack needle : String) : Bool :=
  listContains needle.toList haystack.toList

/-- The keyword router table of router.py lines 20-28, in source
order. -/
def _ROUTES : List (List String × String) :=
  [(["apex", "lwc", "soql", "salesforce", "trigger", "batch", "governor", "cpq"],
    "salesforce"),
   (["instagram", "reel", "tiktok", "short video"], "instagram_reel"),
   (["youtube", "video script", "youtube script", "yt video"], "youtube_video"),
   (["convert to pdf", "image to pdf", "word to pdf", "excel to pdf",
     "pptx to pdf"], "pdf_conversion"),
   (["modify document", "edit word", "edit excel", "edit docx",
     "update spreadsheet"], "document"),
   (["resize image", "watermark", "crop image", "convert image",
     "adjust brightness"], "image"),
   (["write code", "debug", "fix code", "function", "class", "script",
     "implement"], "code")]

/-- One route fires when any of its keywords occurs in the lowered
message. -/
def routeMatches (lower : String) (r : List String × String) : Bool :=
  r.1.any (fun kw => strContains lower kw)

/-- detect_task_type of router.py lines 31-45: lower the message, scan
the routes in order, return the first whose keywords match, else
"qa". -/
def detect_task_type (message : String) : String :=
  match _ROUTES.find? (routeMatches (pyLower message)) with
  | some r => r.2
  | none => "qa"

/-- A concrete collaborator environment in which every tool call
succeeds with a fixed plain result; used to evaluate theorems on
concrete inputs. -/
def defaultEnv : Env where
  convert_any_to_pdf := fun _ _ => Except.ok "outputs/report.pdf"
  modify_word_document := fun _ _ _ => Except.ok "report.docx"
  modify_excel_file := fun _ _ _ _ => Except.ok "report.xlsx"
  resize_image := fun _ _ _ _ => Except.ok "outputs/img.png"
  convert_image_format := fun _ _ _ => Except.ok "outputs/img.webp"
  add_watermark := fun _ _ _ => Except.ok "outputs/img_wm.png"
  adjust_image := fun _ _ _ _ _ => Except.ok "outputs/img_adj.png"
  execute_python_code := fun _ _ =>
    Except.ok (JValue.obj [("success", JValue.bool true), ("stdout", JValue.str "")])
  execute_soql := fun _ => Except.ok (JValue.list [])
  create_instagram_reel_script := fun _ _ _ _ => Except.ok (JValue.obj [])
  create_youtube_video_package := fun _ _ _ => Except.ok (JValue.obj [])
  web_search := fun _ _ _ => Except.ok "search results"
  forum_search := fun _ _ => Except.ok "forum results"
  deep_research := fun _ => Except.ok "research report"
  fetch_url := fun _ _ => Except.ok "page text"
  create_repository := fun _ _ _ _ _ _ => Except.ok (JValue.obj [])
  push_files := fun _ _ _ _ _ => Except.ok (JValue.obj [])
  enable_github_pages := fun _ _ _ => Except.ok (JValue.obj [])
  list_repositories := fun _ => Except.ok (JValue.list [])
  get_repository := fun _ => Except.ok (JValue.obj [])
  get_github_user := Except.ok (JValue.obj [])
  create_release := fun _ _ _ _ => Except.ok (JValue.obj [])
  read_file_from_repo := fun _ _ _ => Except.ok "file contents"
  create_workflow := fun _ _ _ _ => Except.ok "https://example.test/actions"
  run_command := fun _ _ _ => Except.ok (JValue.obj [])
  write_file := fun _ _ _ => Except.ok (JValue.obj [])
  shell_read_file := fun _ _ => Except.ok "file contents"
  list_directory := fun _ _ => Except.ok "dir listing"
  system_info := Except.ok (JValue.obj [])
  git_init_and_push := fun _ _ _ _ => Except.ok (JValue.obj [])
  git_clone := fun _ _ => Except.ok (JValue.obj [])

/-- A collaborator environment in which every tool call raises; used to
evaluate the failure-isolation theorems on concrete inputs. -/
def raisingEnv : Env where
  convert_any_to_pdf := fun _ _ => Except.error "boom"
  modify_word_document := fun _ _ _ => Except.error "boom"
  modify_excel_file := fun _ _ _ _ => Except.error "boom"
  resize_image := fun _ _ _ _ => Except.error "boom"
  convert_image_format := fun _ _ _ => Except.error "boom"
  add_watermark := fun _ _ _ => Except.error "boom"
  adjust_image := fun _ _ _ _ _ => Except.error "boom"
  execute_python_code := fun _ _ => Except.error "boom"
  execute_soql := fun _ => Except.error "boom"
  create_instagram_reel_script := fun _ _ _ _ => Except.error "boom"
  create_youtube_video_package := fun _ _ _ => Except.error "boom"
  web_search := fun _ _ _ => Except.error "boom"
  forum_search := fun _ _ => Except.error "boom"
  deep_research := fun _ => Except.error "boom"
  fetch_url := fun _ _ => Except.error "boom"
  create_repository := fun _ _ _ _ _ _ => Except.error "boom"
  push_files := fun _ _ _ _ _ => Except.error "boom"
  enable_github_pages := fun _ _ _ => Except.error "boom"
  list_repositories := fun _ => Except.error "boom"
  get_repository := fun _ => Except.error "boom"
  get_github_user := Except.error "boom"
  create_release := fun _ _ _ _ => Except.error "boom"
  read_file_from_repo := fun _ _ _ => Except.error "boom"
  create_workflow := fun _ _ _ _ => Except.error "boom"
  run_command := fun _ _ _ => Except.error "boom"
  write_file := fun _ _ _ => Except.error "boom"
  shell_read_file := fun _ _ => Except.error "boom"
  list_directory := fun _ _ => Except.error "boom"
  system_info := Except.error "boom"
  git_init_and_push := fun _ _ _ _ => Except.error "boom"
  git_clone := fun _ _ => Except.error "boom"

/-- A model API that always raises a transport error. -/
def failOracle : Oracle := fun _ => Except.error "Connection error"

/-- A model API that immediately answers end_turn with one text block
and one non-text block. -/
def endOracle : Oracle := fun _ => Except.ok ⟨"end_turn", [Block.text "4", Block.other]⟩

/-- A model API that stops with an unexpected stop reason. -/
def maxOracle : Oracle := fun _ => Except.ok ⟨"max_tokens", [Block.text "partial"]⟩

/-- Content blocks of a demonstration tool_use response: two tool
calls with an interleaved text block. -/
def demoBlocks : List Block :=
  [Block.toolUse "toolu_01" "web_search" [("query", JValue.str "lean")],
   Block.text "searching",
   Block.toolUse "toolu_02" "no_such_tool" []]

/-- A model API that requests the demonstration tool calls on the
first round and then finishes. -/
def toolOracle : Oracle := fun h =>
  if h.length ≤ 1 then Except.ok ⟨"tool_use", demoBlocks⟩
  else Except.ok ⟨"end_turn", [Block.text "done"]⟩

theorem mkToolResults_eq_map (env : Env) (bs : List Block) :
    mkToolResults env bs =
      (toolCalls bs).map (fun c => ⟨c.id, execute_tool env c.name c.input⟩) := by
  induction bs with
  | nil => rfl
  | cons b rest ih => cases b <;> simp [mkToolResults, toolCalls, ih]

theorem mkToolResults_ids (env : Env) (bs : List Block) :
    (mkToolResults env bs).map (fun r => r.tool_use_id) =
      (toolCalls bs).map (fun c => c.id) := by
  induction bs with
  | nil => rfl
  | cons b rest ih => cases b <;> simp [mkToolResults, toolCalls, ih]

theorem answeredAux_append (t : List Message) :
    ∀ (h : List Message) (pending : Option (List String)),
      answeredAux pending h = true →
      answeredAux pending (h ++ t) = answeredAux none t := by
  intro h
  induction h with
  | nil =>
      intro pending hp
      cases pending with
      | none => simp
      | some ids => simp [answeredAux] at hp
  | cons m rest ih =>
      intro pending hp
      obtain ⟨role, content⟩ := m
      cases pending with
      | some ids =>
          cases role <;> cases content <;> simp [answeredAux] at hp ⊢
          obtain ⟨hp1, hp2⟩ := hp
          rw [hp1, ih none hp2]
          simp
      | none =>
          cases role <;> cases content <;> simp [answeredAux] at hp ⊢ <;>
            exact ih _ hp

theorem answered_append (h t : List Message) (hh : answered h = true) :
    answered (h ++ t) = answered t :=
  answeredAux_append t h none hh

theorem answered_user_str (h : List Message) (s : String)
    (hh : answered h = true) :
    answered (h ++ [⟨Role.user, MContent.str s⟩]) = true := by
  rw [answered_append h _ hh]
  rfl

theorem answered_nextHistory (env : Env) (h : List Message) (resp : Response)
    (hh : answered h = true) :
    answered (nextHistory env h resp) = true := by
  unfold nextHistory
  rw [answered_append h _ hh]
  simp [answered, answeredAux, mkToolResults_ids]

theorem chat_loop_ret_prefix (oracle : Oracle) (env : Env) :
    ∀ (fuel : Nat) (hist : List Message) (s : String) (h : List Message),
      chat_loop oracle env fuel hist = some (ChatResult.ret s h) →
      ∃ tail, h = hist ++ tail := by
  intro fuel
  induction fuel with
  | zero => intro hist s h hr; simp [chat_loop] at hr
  | succ n ih =>
      intro hist s h hr
      rw [chat_loop] at hr
      split at hr
      · simp at hr
      · rename_i resp heq
        split at hr
        · obtain ⟨t, ht⟩ := ih _ _ _ hr
          exact ⟨[⟨Role.assistant, MContent.blocks resp.content⟩,
                  ⟨Role.user, MContent.results (mkToolResults env resp.content)⟩] ++ t,
                 by rw [ht]; simp [nextHistory]⟩
        · split at hr
          · simp at hr
            exact ⟨[⟨Role.assistant, MContent.str (joinTexts _)⟩], hr.2.symm⟩
          · simp at hr
            exact ⟨[], by rw [hr.2]; simp⟩

theorem callHistories_answered (oracle : Oracle) (env : Env) :
    ∀ (fuel : Nat) (hist : List Message),
      answered hist = true →
      ∀ h ∈ callHistories oracle env fuel hist, answered h = true := by
  intro fuel
  induction fuel with
  | zero => intro hist hh h hm; simp [callHistories] at hm
  | succ n ih =>
      intro hist hh h hm
      rw [callHistories] at hm
      rcases List.mem_cons.mp hm with rfl | hm2
      · exact hh
      · split at hm2
        · simp at hm2
        · split at hm2
          · exact ih _ (answered_nextHistory env hist _ hh) h hm2
          · simp at hm2

theorem find?_eq_of_first {α : Type} (p : α → Bool) :
    ∀ (l : List α) (i : Nat) (hi : i < l.length),
      p (l.get ⟨i, hi⟩) = true →
      (∀ j (hj : j < i), p (l.get ⟨j, Nat.lt_trans hj hi⟩) = false) →
      l.find? p = some (l.get ⟨i, hi⟩) := by
  intro l
  induction l with
  | nil => intro i hi _ _; exact absurd hi (Nat.not_lt_zero i)
  | cons a t ih =>
      intro i hi hp hb
      cases i with
      | zero => exact List.find?_cons_of_pos _ hp
      | succ n =>
          have ha : p a = false := hb 0 (Nat.succ_pos n)
          rw [List.find?_cons_of_neg _ (by simp [ha])]
          have hi' : n < t.length := Nat.succ_lt_succ_iff.mp hi
          have hb' : ∀ j (hj : j < n), p (t.get ⟨j, Nat.lt_trans hj hi'⟩) = false :=
            fun j hj => hb (j + 1) (Nat.succ_lt_succ hj)
          exact ih n hi' hp hb'

/-- C1: the claim states execute_tool returns a string for every tool
name and argument mapping and never raises.  No exception ever escapes
(the model catches everything by construction of the final match), but
the string part fails: for modify_document with a document_type other
than "word" or "excel" the Python code executes no return statement and
falls off the end of the try block, so execute_tool returns None — not
a string — whatever the collaborators do.  This contradicts the
function header (-> str) and its docstring, so the code, not the claim,
is at fault. -/
theorem execute_tool_modify_document_returns_none (env : Env) :
    execute_tool env "modify_document"
      [("input_path", JValue.str "report.docx"),
       ("document_type", JValue.str "pdf")] = none := rfl

/-- C5: for a tool name absent from the registry, execute_tool returns
the marked unknown-tool string, raises nothing, and consults no
collaborator (the result is the same in every environment). -/
theorem execute_tool_unknown_tool (env env2 : Env) (tool_name : String)
    (ti : Dict) (h : tool_name ∉ TOOLS.map ToolSchema.name) :
    execute_tool env tool_name ti = some ("❌ Unknown tool: " ++ tool_name) ∧
    execute_tool env tool_name ti = execute_tool env2 tool_name ti := by
  simp only [TOOLS, List.map_cons, List.map_nil, List.mem_cons,
    List.not_mem_nil, or_false, not_or] at h
  obtain ⟨h1, h2, h3, h4, h5, h6, h7, h8, h9, h10, h11, h12⟩ := h
  constructor <;>
    simp [execute_tool, execute_tool_body, pure, Except.pure,
      h1, h2, h3, h4, h5, h6, h7, h8, h9, h10, h11, h12]

/-- Witness for C5 at the concrete unknown name frobnicate: the
unknown-tool string comes back, identically in a succeeding and in an
always-raising environment. -/
theorem execute_tool_unknown_tool_witness :
    execute_tool defaultEnv "frobnicate" [] =
      some ("❌ Unknown tool: " ++ "frobnicate") ∧
    execute_tool defaultEnv "frobnicate" [] =
      execute_tool raisingEnv "frobnicate" [] :=
  execute_tool_unknown_tool defaultEnv raisingEnv "frobnicate" [] (by decide)

/-- C9 counterexample: the claim says the same logical result always
serializes to the identical string with stable key order.  json.dumps
is called without sort_keys, so two dicts that are equal as unordered
key-value maps (their entry lists are permutations of each other, and
Python dict equality ignores order) serialize to different strings. -/
theorem json_dumps_key_order_counterexample :
    List.Perm [("a", JValue.int 1), ("b", JValue.int 2)]
              [("b", JValue.int 2), ("a", JValue.int 1)] ∧
    json_dumps (JValue.obj [("a", JValue.int 1), ("b", JValue.int 2)]) ≠
      json_dumps (JValue.obj [("b", JValue.int 2), ("a", JValue.int 1)]) := by
  constructor
  · exact List.Perm.swap _ _ _
  · simp [json_dumps, dumpVal, dumpObjRest, jsonQuote, jsonEscapeChar, pad]
    decide

/-- C9 (amended): the success-encoding is a deterministic function of
the collaborator result value — equal values, and in particular the
same value serialized twice, give identical strings; but key order
follows the order stored in the value rather than a canonical sorted
order (see the counterexample). -/
theorem json_dumps_deterministic (v w : JValue) (h : v = w) :
    json_dumps v = json_dumps w := by rw [h]

/-- Witness for the amended C9 on a concrete structured value. -/
theorem json_dumps_deterministic_witness :
    json_dumps (JValue.obj [("a", JValue.int 1)]) =
      json_dumps (JValue.obj [("a", JValue.int 1)]) :=
  json_dumps_deterministic _ _ rfl

/-- C10: detect_task_type is a total function; it returns "qa" exactly
when no route keyword occurs (case-insensitively) in the message; when
several routes have matching keywords, the route listed earliest in
_ROUTES wins; the concrete conjunct shows a message containing both
SALESFORCE (upper case) and write code routing to "salesforce". -/
theorem detect_task_type_spec :
    (∀ m : String, detect_task_type m = "qa" ↔
        ∀ r ∈ _ROUTES, ∀ kw ∈ r.1, strContains (pyLower m) kw = false) ∧
    (∀ (m : String) (i : Nat) (hi : i < _ROUTES.length),
        routeMatches (pyLower m) (_ROUTES.get ⟨i, hi⟩) = true →
        (∀ j (hj : j < i),
          routeMatches (pyLower m) (_ROUTES.get ⟨j, Nat.lt_trans hj hi⟩) = false) →
        detect_task_type m = (_ROUTES.get ⟨i, hi⟩).2) ∧
    detect_task_type "Use SALESFORCE and write code" = "salesforce" := by
  refine ⟨?_, ?_, by decide⟩
  · intro m
    unfold detect_task_type
    cases hf : _ROUTES.find? (routeMatches (pyLower m)) with
    | none =>
        simp only [hf]
        constructor
        · intro _ r hr kw hkw
          have hall := List.find?_eq_none.mp hf r hr
          simp only [routeMatches, List.any_eq_true, not_exists, not_and] at hall
          have := hall kw hkw
          simp at this
          exact this
        · intro _; trivial
    | some r =>
        simp only [hf]
        have hmem := List.mem_of_find?_eq_some hf
        have hp := List.find?_some hf
        have hall : ∀ x ∈ _ROUTES, x.2 ≠ "qa" := by decide
        constructor
        · intro hqa
          exact absurd hqa (hall r hmem)
        · intro hnone
          exfalso
          simp only [routeMatches, List.any_eq_true] at hp
          obtain ⟨kw, hkw, hc⟩ := hp
          have := hnone r hmem kw hkw
          rw [this] at hc
          simp at hc
  · intro m i hi hmatch hbefore
    have hfind := find?_eq_of_first (routeMatches (pyLower m)) _ROUTES i hi hmatch hbefore
    unfold detect_task_type
    rw [hfind]

/-- Witness for C10: the priority conjunct applied at a concrete
message that matches only the last route. -/
theorem detect_task_type_spec_witness :
    detect_task_type "please write code" = "code" :=
  detect_task_type_spec.2.1 "please write code" 6 (by decide) (by decide) (by decide)

/-- C2: when a response stops with tool_use, the loop appends the
assistant message and then one single user message whose tool_result
blocks are, in order, exactly one per tool_use block of the response,
each carrying the id of the request it answers and the execute_tool
output for that request. -/
theorem chat_tool_results_order (oracle : Oracle) (env : Env) (fuel : Nat)
    (hist : List Message) (resp : Response)
    (h1 : oracle hist = Except.ok resp) (h2 : resp.stop_reason = "tool_use") :
    chat_loop oracle env (fuel + 1) hist =
      chat_loop oracle env fuel
        (hist ++ [⟨Role.assistant, MContent.blocks resp.content⟩,
                  ⟨Role.user, MContent.results (mkToolResults env resp.content)⟩]) ∧
    mkToolResults env resp.content =
      (toolCalls resp.content).map (fun c => ⟨c.id, execute_tool env c.name c.input⟩) ∧
    (mkToolResults env resp.content).length = (toolCalls resp.content).length ∧
    (mkToolResults env resp.content).map (fun r => r.tool_use_id) =
      (toolCalls resp.content).map (fun c => c.id) := by
  refine ⟨?_, mkToolResults_eq_map env resp.content, ?_,
          mkToolResults_ids env resp.content⟩
  · rw [chat_loop, h1]
    simp [h2, nextHistory]
  · rw [mkToolResults_eq_map]
    simp

/-- Witness for C2 on a concrete two-call response (one call to a
known tool, one to an unknown tool): the synthesized result blocks
carry the request ids in request order. -/
theorem chat_tool_results_order_witness :
    (mkToolResults defaultEnv demoBlocks).map (fun r => r.tool_use_id) =
      ["toolu_01", "toolu_02"] :=
  ((chat_tool_results_order toolOracle defaultEnv 0 []
      ⟨"tool_use", demoBlocks⟩ rfl rfl).2.2.2).trans (by rfl)

/-- C3 counterexample: the claim says a transport error leaves history
exactly as it was before chat was called.  chat appends the user
message before invoking the model and nothing catches the transport
error, so after a failing first call the history holds one more
message than before: here chat was called on the empty history and the
escaping-exception state carries the appended user message, which is
not the empty pre-call history. -/
theorem chat_transport_error_history_not_restored :
    chat failOracle defaultEnv 1 [] "hello" none =
      some (ChatResult.raised "Connection error"
        [⟨Role.user, MContent.str "hello"⟩]) ∧
    ([⟨Role.user, MContent.str "hello"⟩] : List Message) ≠ [] := by
  exact ⟨rfl, by simp⟩

/-- C3 (amended): a transport error escapes to the caller and the
failed invocation itself appends nothing — history is exactly what it
was at the moment of that invocation; for a failure on the first
invocation of an external turn that is the pre-call history plus the
user message chat appended before calling, so resubmitting the same
message appends it a second time rather than finding history
unchanged. -/
theorem chat_transport_error_appends_nothing :
    (∀ (oracle : Oracle) (env : Env) (fuel : Nat) (hist : List Message) (e : String),
        oracle hist = Except.error e →
        chat_loop oracle env (fuel + 1) hist = some (ChatResult.raised e hist)) ∧
    (∀ (oracle : Oracle) (env : Env) (fuel : Nat) (hist : List Message)
        (user_message : String) (up : Option String) (e : String),
        oracle (hist ++ [⟨Role.user, MContent.str (mkUserContent user_message up)⟩]) =
          Except.error e →
        chat oracle env (fuel + 1) hist user_message up =
          some (ChatResult.raised e
            (hist ++ [⟨Role.user, MContent.str (mkUserContent user_message up)⟩]))) := by
  constructor
  · intro oracle env fuel hist e he
    rw [chat_loop, he]
  · intro oracle env fuel hist user_message up e he
    unfold chat
    rw [chat_loop, he]

/-- Witness for the amended C3: a failing first call on the empty
history raises and leaves exactly the appended user message. -/
theorem chat_transport_error_appends_nothing_witness :
    chat failOracle defaultEnv 2 [] "hi" none =
      some (ChatResult.raised "Connection error"
        [⟨Role.user, MContent.str "hi"⟩]) :=
  chat_transport_error_appends_nothing.2 failOracle defaultEnv 1 [] "hi" none
    "Connection error" rfl

/-- C4: on end_turn the loop returns the concatenation, in response
order, of the text of the text-bearing blocks (non-text blocks are
ignored by joinTexts) and appends that same string to history as a new
assistant message before returning. -/
theorem chat_end_turn_concat_texts (oracle : Oracle) (env : Env) (fuel : Nat)
    (hist : List Message) (resp : Response)
    (h1 : oracle hist = Except.ok resp) (h2 : resp.stop_reason = "end_turn") :
    chat_loop oracle env (fuel + 1) hist =
      some (ChatResult.ret (joinTexts resp.content)
        (hist ++ [⟨Role.assistant, MContent.str (joinTexts resp.content)⟩])) := by
  rw [chat_loop, h1]
  have hne : resp.stop_reason ≠ "tool_use" := by rw [h2]; decide
  simp [hne, h2]

/-- Witness for C4: an end_turn response with one text block and one
non-text block yields the text and appends it as the assistant turn. -/
theorem chat_end_turn_concat_texts_witness :
    chat_loop endOracle defaultEnv 1 [] =
      some (ChatResult.ret "4" [⟨Role.assistant, MContent.str "4"⟩]) :=
  chat_end_turn_concat_texts endOracle defaultEnv 0 []
    ⟨"end_turn", [Block.text "4", Block.other]⟩ rfl rfl

/-- C6: on a stop reason that is neither tool_use nor end_turn the loop
returns the generic error string and appends nothing after that
response arrives — the history in the returned state is the history as
it stood. -/
theorem chat_unexpected_stop_generic_error (oracle : Oracle) (env : Env)
    (fuel : Nat) (hist : List Message) (resp : Response)
    (h1 : oracle hist = Except.ok resp)
    (h2 : resp.stop_reason ≠ "tool_use") (h3 : resp.stop_reason ≠ "end_turn") :
    chat_loop oracle env (fuel + 1) hist =
      some (ChatResult.ret "An unexpected error occurred. Please try again." hist) := by
  rw [chat_loop, h1]
  simp [h2, h3]

/-- Witness for C6 at the concrete stop reason max_tokens. -/
theorem chat_unexpected_stop_generic_error_witness :
    chat_loop maxOracle defaultEnv 1 [] =
      some (ChatResult.ret "An unexpected error occurred. Please try again." []) :=
  chat_unexpected_stop_generic_error maxOracle defaultEnv 0 []
    ⟨"max_tokens", [Block.text "partial"]⟩ rfl (by decide) (by decide)

/-- C7: whenever chat completes an external turn normally (the end_turn
return or the unexpected-stop return), the final history extends the
pre-turn history: every prior message is still there, unchanged, in its
original position, and the length has not decreased; history is
cleared only by the explicit reset_conversation. -/
theorem chat_history_append_only :
    (∀ (oracle : Oracle) (env : Env) (fuel : Nat) (hist : List Message)
        (user_message : String) (up : Option String) (s : String) (h : List Message),
        chat oracle env fuel hist user_message up = some (ChatResult.ret s h) →
        ∃ tail, h = hist ++ tail ∧ hist.length ≤ h.length) ∧
    (∀ hist : List Message, reset_conversation hist = []) := by
  constructor
  · intro oracle env fuel hist user_message up s h hr
    obtain ⟨t, ht⟩ := chat_loop_ret_prefix oracle env fuel _ s h hr
    refine ⟨[⟨Role.user, MContent.str (mkUserContent user_message up)⟩] ++ t, ?_, ?_⟩
    · rw [ht]; simp
    · rw [ht]; simp
  · intro hist; rfl

/-- Witness for C7: a one-round end_turn conversation extends the empty
pre-turn history by the user and assistant messages. -/
theorem chat_history_append_only_witness :
    ∃ tail,
      ([⟨Role.user, MContent.str "hi"⟩, ⟨Role.assistant, MContent.str "4"⟩] :
        List Message) = [] ++ tail ∧
      ([] : List Message).length ≤
        ([⟨Role.user, MContent.str "hi"⟩, ⟨Role.assistant, MContent.str "4"⟩] :
          List Message).length :=
  chat_history_append_only.1 endOracle defaultEnv 1 [] "hi" none "4" _ rfl

/-- C8: starting from a history with no unanswered tool calls, every
history chat presents to the model again has no unanswered tool calls:
each assistant message holding tool_use blocks is immediately followed
by the user message whose tool_result blocks answer exactly those ids
in order — whatever the collaborators do, including raising. -/
theorem chat_no_unanswered_tool_calls (oracle : Oracle) (env : Env) (fuel : Nat)
    (hist : List Message) (user_message : String) (up : Option String)
    (hh : answered hist = true) :
    ∀ h ∈ chatCalls oracle env fuel hist user_message up, answered h = true := by
  intro h hm
  unfold chatCalls at hm
  exact callHistories_answered oracle env fuel _
    (answered_user_str hist _ hh) h hm

/-- Witness for C8: the second model invocation of a concrete tool_use
round trip sees a balanced history (the tool_use assistant turn is
followed by its matching results turn). -/
theorem chat_no_unanswered_tool_calls_witness :
    answered (nextHistory defaultEnv
      [⟨Role.user, MContent.str "search lean please"⟩]
      ⟨"tool_use", demoBlocks⟩) = true :=
  chat_no_unanswered_tool_calls toolOracle defaultEnv 2 []
    "search lean please" none rfl _
    (List.mem_cons_of_mem _ (List.mem_cons_self _ _))
